import Mathlib

/-!
Verification of the streaming-execution / cancellation bridge of the
lovable-clone repository.

The embedding models:
  * the SSE line classifier `handleOutput` and the stderr relay `handleError`
    of `app/api/execute-command/route.ts`;
  * the `runningProcesses` registry of `lib/process-tracker.ts` (a `Map` from
    request id to a process handle, either an E2B killable interface returned
    by `executeInSandbox` or a node `ChildProcess`);
  * the cancel-execution POST handler (the `isE2BProcess`-aware variant);
  * the background execution loop of the execute-command POST handler, as a
    function from an environment (the outcomes of the external calls:
    `Sandbox.connect`, `commands.run`, the stdout/stderr chunks delivered by
    the E2B callbacks, the exit code, and the JSON parser) and a per-write
    connectivity oracle to the ordered trace of observable actions (stream
    writes, remote calls, registry mutations) plus the final registry.

External runtime routines (`JSON.parse`, `randomUUID`, the sandbox transport)
are modelled as oracle parameters; everything that is code of the repository
is translated directly from the source.
-/

set_option maxHeartbeats 1000000
set_option maxRecDepth 4000

namespace LovableBridge

/-- ASCII whitespace test used to model JavaScript `String.prototype.trim`
on the plain-ASCII lines this system produces. -/
def isWsChar (c : Char) : Bool :=
  c = ' ' || c = '\t' || c = '\n' || c = '\r'

/-- Characters remaining after removing leading whitespace. -/
def dropWs (l : List Char) : List Char :=
  l.dropWhile isWsChar

/-- Model of JavaScript `line.trim()`: strip whitespace from both ends. -/
def jsTrim (s : String) : String :=
  String.mk ((dropWs ((dropWs s.data).reverse)).reverse)

/-- Whether the first list is a leading segment of the second. -/
def leadsWith : List Char → List Char → Bool
  | [], _ => true
  | _ :: _, [] => false
  | a :: as, b :: bs => a = b && leadsWith as bs

/-- Occurrence test on character lists: the pattern occurs somewhere. -/
def containsChars (pat : List Char) : List Char → Bool
  | [] => pat.isEmpty
  | c :: rest => leadsWith pat (c :: rest) || containsChars pat rest

/-- Model of JavaScript `s.includes(pat)`. -/
def containsSub (s pat : String) : Bool :=
  containsChars pat.data s.data

/-- Characters after the first occurrence of the pattern, i.e. the model of
`s.substring(s.indexOf(pat) + pat.length)`; empty when the pattern does not
occur (the route only evaluates it after an `includes` guard). -/
def afterFirstChars (pat : List Char) : List Char → List Char
  | [] => []
  | c :: rest =>
    if leadsWith pat (c :: rest) then (c :: rest).drop pat.length
    else afterFirstChars pat rest

/-- String wrapper for `afterFirstChars`. -/
def afterFirst (s pat : String) : String :=
  String.mk (afterFirstChars pat.data s.data)

/-- Minimal JSON value model. `JSON.parse` itself is an external runtime
routine; the classifier receives it as an oracle `String → Option Json`
where `none` models a thrown parse exception. -/
inductive Json where
  | null
  | bool (b : Bool)
  | num (n : Int)
  | str (s : String)
  | arr (elems : List Json)
  | obj (fields : List (String × Json))

/-- JavaScript property access `j.k` on a parsed value; `none` models
`undefined`. -/
def Json.get : Json → String → Option Json
  | .obj fields, k => (fields.find? (fun f => f.1 == k)).map (fun f => f.2)
  | _, _ => none

/-- The discriminated events written to the SSE stream: the `type` field of
the JSON payloads produced by `app/api/execute-command/route.ts`. -/
inductive OutputEvent where
  | request_id (id : String)
  | session_id (sid : String)
  | claude_message (content : Option Json)
  | tool_use (name : Option Json) (input : Option Json)
  | progress (message : String)
  | error (message : String)
  | complete

/-- Character class `[a-fA-F0-9-]` of the session-id regex. -/
def hexDashChar (c : Char) : Bool :=
  ('a' ≤ c && c ≤ 'f') || ('A' ≤ c && c ≤ 'F') || c.isDigit || c = '-'

/-- Model of `line.match(/\[System\]: Session started:\s*([a-f0-9-]+)/i)`:
the maximal run of `[a-fA-F0-9-]` characters after the first occurrence of
the marker, skipping whitespace; `none` when that run is empty. -/
def sessionIdOf (line : String) : Option String :=
  let rest := dropWs (afterFirstChars ("[System]: Session started:".data) line.data)
  let id := rest.takeWhile hexDashChar
  if id.isEmpty then none else some (String.mk id)

/-- Shallow embedding of the `handleOutput` closure of
`app/api/execute-command/route.ts` (lines 93-152): classify one stdout chunk
and return the events it emits, in order. -/
def handleOutput (jsonParse : String → Option Json) (line : String) :
    List OutputEvent :=
  if jsTrim line = "" then []
  else if containsSub line "[System]: Session started:" then
    match sessionIdOf line with
    | some sid => [OutputEvent.session_id sid]
    | none => []
  else if containsSub line "__CLAUDE_MESSAGE__" then
    match jsonParse (jsTrim (afterFirst line "__CLAUDE_MESSAGE__")) with
    | some msg => [OutputEvent.claude_message (msg.get "content")]
    | none => []
  else if containsSub line "__TOOL_USE__" then
    match jsonParse (jsTrim (afterFirst line "__TOOL_USE__")) with
    | some tu => [OutputEvent.tool_use (tu.get "name") (tu.get "input")]
    | none => []
  else if containsSub line "__TOOL_RESULT__" then []
  else if jsTrim line ≠ "" ∧ containsSub (jsTrim line) "[Claude]:" = false
      ∧ containsSub (jsTrim line) "[Tool]:" = false
      ∧ containsSub (jsTrim line) "__" = false then
    [OutputEvent.progress (jsTrim line)]
  else []

/-- Shallow embedding of the `handleError` closure of
`app/api/execute-command/route.ts` (lines 154-162): one stderr chunk is
relayed as an `error` event exactly when it contains "Error" or "Failed". -/
def handleError (chunk : String) : List OutputEvent :=
  if containsSub chunk "Error" || containsSub chunk "Failed" then
    [OutputEvent.error (jsTrim chunk)]
  else []

/-- The two kinds of handle stored in the `runningProcesses` map of
`lib/process-tracker.ts`: the killable interface returned by
`executeInSandbox` (E2B variant) or a spawned node `ChildProcess` with an
optional pid (the `isE2BProcess` discrimination of the cancel handler). -/
inductive Handle where
  | e2b
  | child (pid : Option Nat)
deriving DecidableEq

/-- The `runningProcesses` registry: a `Map` from request id to handle,
modelled as an association list with `Map` key semantics. -/
abbrev Registry := List (String × Handle)

/-- Model of `runningProcesses.get(id)`. -/
def lookupReg (reg : Registry) (id : String) : Option Handle :=
  (reg.find? (fun e => e.1 == id)).map (fun e => e.2)

/-- Model of `runningProcesses.delete(id)`: delete-if-present, no-op
otherwise. -/
def removeReg (reg : Registry) (id : String) : Registry :=
  reg.filter (fun e => !(e.1 == id))

/-- Model of `runningProcesses.set(id, h)`. -/
def setReg (reg : Registry) (id : String) (h : Handle) : Registry :=
  if reg.any (fun e => e.1 == id) then
    reg.map (fun e => if e.1 == id then (id, h) else e)
  else reg ++ [(id, h)]

/-- HTTP outcome of the cancel-execution handler: 200 "Execution cancelled",
404 "Process not found or already completed", or 400 "Request ID is
required". -/
inductive CancelOutcome where
  | cancelled
  | notFound
  | badRequest
deriving DecidableEq

/-- Observable side effects of the cancel-execution handler. `kill` records
the signal, whether the call is an awaited remote round-trip (the E2B
`process.kill`, which runs follow-up sandbox commands) or a local synchronous
signal, and whether the underlying kill threw (always swallowed by the
handler's catch). `scheduleForceKill` records the `setTimeout` of a forced
kill. `remove` records the registry deletion. -/
inductive CancelAction where
  | kill (signal : String) (remoteAwait : Bool) (threw : Bool)
  | scheduleForceKill (signal : String) (delayMs : Nat)
  | remove (id : String)
deriving DecidableEq

/-- Shallow embedding of the cancel-execution POST handler (the
`isE2BProcess`-aware variant). `killThrows` is the oracle for whether the
kill call throws; the handler catches it either way. Returns the HTTP
outcome, the resulting registry, and the ordered action list. -/
def cancelExecution (reg : Registry) (requestId : String) (killThrows : Bool) :
    CancelOutcome × Registry × List CancelAction :=
  if requestId = "" then (CancelOutcome.badRequest, reg, [])
  else
    match lookupReg reg requestId with
    | none => (CancelOutcome.notFound, reg, [])
    | some hdl =>
      let killActs :=
        match hdl with
        | Handle.e2b => [CancelAction.kill "SIGTERM" true killThrows]
        | Handle.child none => []
        | Handle.child (some _) =>
          if killThrows then [CancelAction.kill "SIGTERM" false true]
          else [CancelAction.kill "SIGTERM" false false,
                CancelAction.scheduleForceKill "SIGKILL" 1000]
      (CancelOutcome.cancelled, removeReg reg requestId,
       killActs ++ [CancelAction.remove requestId])

/-- One chunk delivered by the sandbox streaming callbacks: stdout data
(routed to `handleOutput`) or stderr data (routed to `handleError`). -/
inductive Chunk where
  | out (data : String)
  | err (data : String)

/-- Events a chunk makes the route emit. -/
def chunkEvents (jsonParse : String → Option Json) : Chunk → List OutputEvent
  | Chunk.out s => handleOutput jsonParse s
  | Chunk.err s => handleError s

/-- The remote sandbox calls the execute-command handler issues. -/
inductive RemoteCall where
  | connect (sandboxId : String)
  | runStart (command : String)

/-- One observable action of the execute-command handler, in program order:
a stream write of an event (with whether it was delivered), the raw
`data: [DONE]` sentinel write, a remote sandbox call, a registry mutation,
or closing the stream writer. -/
inductive Action where
  | write (e : OutputEvent) (delivered : Bool)
  | writeDone (delivered : Bool)
  | remote (r : RemoteCall)
  | regSet (id : String)
  | regDelete (id : String)
  | close

/-- The raw `writer.write`: throws exactly when the client has
disconnected. -/
def writerWrite (connected : Bool) : Except String Unit :=
  if connected then Except.ok () else Except.error "client disconnected"

/-- Shallow embedding of `safeWrite` (route.ts lines 7-15): the write
exception is caught and converted to a returned `false`; the bridge never
propagates it. -/
def safeWrite (connected : Bool) : Bool :=
  match writerWrite connected with
  | Except.ok _ => true
  | Except.error _ => false

/-- Sequence of write actions for a list of events, threading the write
index into the connectivity oracle. -/
def writeSeq (conn : Nat → Bool) (k : Nat) : List OutputEvent → List Action
  | [] => []
  | e :: es => Action.write e (safeWrite (conn k)) :: writeSeq conn (k + 1) es

/-- Write actions for a list of chunks, returning also the next write
index. -/
def chunksActions (jsonParse : String → Option Json) (conn : Nat → Bool)
    (k : Nat) : List Chunk → List Action × Nat
  | [] => ([], k)
  | c :: cs =>
    let evs := chunkEvents jsonParse c
    let rest := chunksActions jsonParse conn (k + evs.length) cs
    (writeSeq conn k evs ++ rest.1, rest.2)

/-- Command preparation of the execute-command handler (route.ts lines
72-86). -/
def buildCommand (commandType query : String) (sessionId : Option String) :
    String :=
  if commandType = "ai" then
    match sessionId with
    | some sid =>
      "pnpx tsx scripts/feature-assistant.ts -- \"" ++ query
        ++ "\" --session-id " ++ sid
    | none => "pnpx tsx scripts/feature-assistant.ts -- \"" ++ query ++ "\""
  else query

/-- The pid-capturing wrapper `executeInSandbox` builds around the command
(e2b_utils/index.ts lines 304-313). -/
def wrappedCommand (workingDir : Option String) (command pidFile : String) :
    String :=
  "\n      (\n        "
    ++ (match workingDir with
        | some wd => "cd " ++ wd ++ " && "
        | none => "")
    ++ command
    ++ "\n      ) &\n      echo $! > " ++ pidFile
    ++ "\n      wait $!\n      EXIT_CODE=$?\n      rm -f " ++ pidFile
    ++ "\n      exit $EXIT_CODE\n    "

/-- Outcomes of the external calls made by one accepted execute-command
request. `connectErr` models `Sandbox.connect` throwing; `runErr` models the
`commands.run` promise rejecting (transport failure or timeout);
`earlyChunks` are the streaming callbacks delivered before `executeInSandbox`
returns to the route, `lateChunks` those delivered while the route awaits
`execution.wait()`; `exitCode` is the command's exit code when it completes;
`requestId` is the value of the external `randomUUID()`; `pidFile` the
`Date.now`/`Math.random`-derived temporary path; `jsonParse` the `JSON.parse`
oracle. -/
structure ExecEnv where
  sandboxId : String
  commandType : String
  query : String
  sessionId : Option String
  requestId : String
  pidFile : String
  connectErr : Option String
  runErr : Option String
  earlyChunks : List Chunk
  lateChunks : List Chunk
  exitCode : Int
  jsonParse : String → Option Json

/-- Shallow embedding of the background IIFE of the execute-command POST
handler (route.ts lines 56-223), serialized along the event loop: the
`request_id` write; on delivery failure an immediate return; otherwise the
`Sandbox.connect` and `commands.run` remote calls inside `executeInSandbox`,
the streamed chunks, the `runningProcesses.set` once `executeInSandbox`
returns, the chunks streamed during `execution.wait()`, then on every path
the `runningProcesses.delete`, exactly one of the `complete`/`error` writes,
the `[DONE]` sentinel and the writer close. Returns the action trace and the
final registry. -/
def runExec (env : ExecEnv) (conn : Nat → Bool) (reg : Registry) :
    List Action × Registry :=
  let first := Action.write (OutputEvent.request_id env.requestId)
    (safeWrite (conn 0))
  if safeWrite (conn 0) = false then ([first], reg)
  else
    match env.connectErr with
    | some msg =>
      ([first, Action.remote (RemoteCall.connect env.sandboxId),
        Action.regDelete env.requestId,
        Action.write (OutputEvent.error msg) (safeWrite (conn 1)),
        Action.writeDone (safeWrite (conn 2)), Action.close],
       removeReg reg env.requestId)
    | none =>
      let command := buildCommand env.commandType env.query env.sessionId
      let wrapped := wrappedCommand (some "/home/user/app") command env.pidFile
      let early := chunksActions env.jsonParse conn 1 env.earlyChunks
      let reg1 := setReg reg env.requestId Handle.e2b
      let late := chunksActions env.jsonParse conn early.2 env.lateChunks
      let head := [first, Action.remote (RemoteCall.connect env.sandboxId),
                   Action.remote (RemoteCall.runStart wrapped)]
        ++ early.1 ++ [Action.regSet env.requestId] ++ late.1
      let tailFor := fun (t : OutputEvent) =>
        [Action.regDelete env.requestId,
         Action.write t (safeWrite (conn late.2)),
         Action.writeDone (safeWrite (conn (late.2 + 1))), Action.close]
      match env.runErr with
      | some msg =>
        (head ++ tailFor (OutputEvent.error msg), removeReg reg1 env.requestId)
      | none =>
        if env.exitCode = 0 then
          (head ++ tailFor OutputEvent.complete, removeReg reg1 env.requestId)
        else
          (head ++ tailFor (OutputEvent.error
             ("Command exited with code " ++ toString env.exitCode)),
           removeReg reg1 env.requestId)

/-- The events of the write actions of a trace, in order. -/
def eventWrites (tr : List Action) : List OutputEvent :=
  tr.filterMap (fun a =>
    match a with
    | Action.write e _ => some e
    | _ => none)

/-- Terminal-typed events in the sense of the spec: `complete` or `error`. -/
def isTerminalEvent : OutputEvent → Bool
  | OutputEvent.complete => true
  | OutputEvent.error _ => true
  | _ => false

/-- Remote sandbox calls in a trace. -/
def isRemoteA : Action → Bool
  | Action.remote _ => true
  | _ => false

/-- Registry insertions in a trace. -/
def isRegSetA : Action → Bool
  | Action.regSet _ => true
  | _ => false

/-- Registry mutations in a trace. -/
def isRegA : Action → Bool
  | Action.regSet _ => true
  | Action.regDelete _ => true
  | _ => false

/-- Forced-kill scheduling among cancel actions. -/
def isScheduleA : CancelAction → Bool
  | CancelAction.scheduleForceKill _ _ => true
  | _ => false

/-- Erase the delivery flags of a trace, keeping the events, remote calls
and registry mutations: the part of the behaviour that must not depend on
whether the client is still listening. -/
def shape : Action → Action
  | Action.write e _ => Action.write e true
  | Action.writeDone _ => Action.writeDone true
  | a => a

/-- Evaluating the caught write: `safeWrite` returns the connectivity flag
instead of propagating the writer's exception. -/
theorem safeWrite_eq (c : Bool) : safeWrite c = c := by
  cases c <;> rfl

/-- Deleting a key from the registry makes it absent. -/
theorem lookupReg_removeReg (reg : Registry) (id : String) :
    lookupReg (removeReg reg id) id = none := by
  induction reg with
  | nil => rfl
  | cons e tl ih =>
    by_cases h : e.1 = id
    · have hr : removeReg (e :: tl) id = removeReg tl id := by
        simp [removeReg, List.filter_cons, h]
      rw [hr]
      exact ih
    · simp only [removeReg, List.filter_cons] at ih ⊢
      simp [lookupReg, List.find?_cons, h, ih]

/-- Event extraction distributes over trace concatenation. -/
theorem eventWrites_append (a b : List Action) :
    eventWrites (a ++ b) = eventWrites a ++ eventWrites b := by
  simp [eventWrites, List.filterMap_append]

/-- A write sequence writes exactly its events. -/
theorem eventWrites_writeSeq (conn : Nat → Bool) (k : Nat)
    (evs : List OutputEvent) : eventWrites (writeSeq conn k evs) = evs := by
  induction evs generalizing k with
  | nil => rfl
  | cons e es ih =>
    simp only [writeSeq, eventWrites, List.filterMap_cons]
    exact congrArg (e :: ·) (ih (k + 1))

/-- Every event written while streaming chunks comes from classifying one of
the chunks. -/
theorem mem_chunksActions_events {jsonParse : String → Option Json}
    {conn : Nat → Bool} {k : Nat} {cs : List Chunk} {e : OutputEvent}
    (h : e ∈ eventWrites (chunksActions jsonParse conn k cs).1) :
    ∃ c ∈ cs, e ∈ chunkEvents jsonParse c := by
  induction cs generalizing k with
  | nil => simp [chunksActions, eventWrites] at h
  | cons c cs ih =>
    simp only [chunksActions] at h
    rw [eventWrites_append, eventWrites_writeSeq] at h
    rcases List.mem_append.mp h with h1 | h2
    · exact ⟨c, by simp, h1⟩
    · rcases ih h2 with ⟨c2, hc2, he⟩
      exact ⟨c2, by simp [hc2], he⟩

/-- The stdout classifier never emits the `complete` event. -/
theorem handleOutput_no_complete (p : String → Option Json) (line : String) :
    OutputEvent.complete ∉ handleOutput p line := by
  unfold handleOutput
  repeat' split
  all_goals intro h
  all_goals
    first
      | exact List.not_mem_nil _ h
      | (rw [List.mem_singleton] at h; exact OutputEvent.noConfusion h)

/-- The stderr relay never emits the `complete` event. -/
theorem handleError_no_complete (s : String) :
    OutputEvent.complete ∉ handleError s := by
  unfold handleError
  split <;> simp

/-- No streamed chunk ever yields the `complete` event. -/
theorem chunkEvents_no_complete (p : String → Option Json) (c : Chunk) :
    OutputEvent.complete ∉ chunkEvents p c := by
  cases c with
  | out s => exact handleOutput_no_complete p s
  | err s => exact handleError_no_complete s

/-- Delivered-flag-erased form of a list of event writes. -/
def shapeOfEvents (evs : List OutputEvent) : List Action :=
  evs.map (fun e => Action.write e true)

/-- The shape of a write sequence does not depend on the connectivity oracle
or the write index. -/
theorem shape_writeSeq (conn : Nat → Bool) (k : Nat)
    (evs : List OutputEvent) :
    (writeSeq conn k evs).map shape = shapeOfEvents evs := by
  induction evs generalizing k with
  | nil => rfl
  | cons e es ih =>
    simp only [writeSeq, List.map_cons, shape, shapeOfEvents]
    exact congrArg (Action.write e true :: ·) (ih (k + 1))

/-- Canonical shape of the chunk-streaming segment of a trace. -/
def chunksShape (p : String → Option Json) : List Chunk → List Action
  | [] => []
  | c :: cs => shapeOfEvents (chunkEvents p c) ++ chunksShape p cs

/-- The shape of the chunk-streaming segment does not depend on the
connectivity oracle or the write index. -/
theorem shape_chunksActions (p : String → Option Json) (conn : Nat → Bool)
    (k : Nat) (cs : List Chunk) :
    ((chunksActions p conn k cs).1).map shape = chunksShape p cs := by
  induction cs generalizing k with
  | nil => rfl
  | cons c cs ih =>
    simp only [chunksActions, chunksShape, List.map_append, shape_writeSeq]
    exact congrArg (shapeOfEvents (chunkEvents p c) ++ ·) (ih _)

/-- Total number of events a chunk list produces. -/
def chunksLen (p : String → Option Json) : List Chunk → Nat
  | [] => 0
  | c :: cs => (chunkEvents p c).length + chunksLen p cs

/-- The next write index after streaming chunks depends only on the starting
index and the chunks. -/
theorem chunksActions_snd (p : String → Option Json) (conn : Nat → Bool)
    (k : Nat) (cs : List Chunk) :
    (chunksActions p conn k cs).2 = k + chunksLen p cs := by
  induction cs generalizing k with
  | nil => simp [chunksActions, chunksLen]
  | cons c cs ih =>
    simp only [chunksActions, chunksLen, ih]
    omega

/-- A `JSON.parse` oracle that fails on every payload, used for concrete
runs whose payloads are not valid JSON. -/
def sampleParse : String → Option Json := fun _ => none

/-- A concrete accepted run: shell command, one stdout chunk delivered
before `executeInSandbox` returns, successful exit. -/
def envPlain : ExecEnv :=
  { sandboxId := "sbx-1", commandType := "shell", query := "echo hello",
    sessionId := none, requestId := "req-1", pidFile := "/tmp/p1.pid",
    connectErr := none, runErr := none,
    earlyChunks := [Chunk.out "hello"], lateChunks := [],
    exitCode := 0, jsonParse := sampleParse }

/-- A concrete successful run whose stderr contains a line with the
substring "Error" (relayed as an `error` event) although the command exits
with code 0. -/
def envStderr : ExecEnv :=
  { envPlain with earlyChunks := [],
                  lateChunks := [Chunk.err "Error: connection refused"] }

/-- A registry holding one child-process handle without a pid. -/
def regW : Registry := [("req-1", Handle.child none)]

/-- A registry holding one E2B handle. -/
def regE2b : Registry := [("req-9", Handle.e2b)]

/-- A registry holding one child-process handle with a pid. -/
def regChild : Registry := [("req-7", Handle.child (some 42))]

/-- After a started execution finishes, on any of its paths (success,
connect failure, run failure, non-zero exit), its request id is absent from
the final registry. -/
theorem runExec_lookup_final (env : ExecEnv) (conn : Nat → Bool)
    (reg : Registry) (h : conn 0 = true) :
    lookupReg (runExec env conn reg).2 env.requestId = none := by
  unfold runExec
  simp only [safeWrite_eq, h, Bool.true_eq_false, if_false]
  cases hc : env.connectErr with
  | some msg => simp [lookupReg_removeReg]
  | none =>
    cases hr : env.runErr with
    | some msg => simp [lookupReg_removeReg]
    | none =>
      by_cases he : env.exitCode = 0 <;> simp [he, lookupReg_removeReg]

/-- C2: after the cancellation handler returns with either the "cancelled"
or the "not found" outcome, the requestId is no longer present in the
registry; and when a handle was present, the handler reports success
("cancelled") even when the underlying kill throws (the `killThrows` oracle
is arbitrary). The handler itself is a total function: kill exceptions are
swallowed by its catch. -/
theorem cancel_removes_entry (reg : Registry) (id : String) (kt : Bool)
    (ho : (cancelExecution reg id kt).1 = CancelOutcome.cancelled
        ∨ (cancelExecution reg id kt).1 = CancelOutcome.notFound) :
    lookupReg (cancelExecution reg id kt).2.1 id = none
    ∧ (∀ hdl, lookupReg reg id = some hdl →
        (cancelExecution reg id kt).1 = CancelOutcome.cancelled) := by
  by_cases hid : id = ""
  · exfalso
    rcases ho with h | h <;> simp [cancelExecution, hid] at h
  · cases hl : lookupReg reg id with
    | none =>
      refine ⟨?_, fun hdl hh => ?_⟩
      · simp [cancelExecution, hid, hl]
      · exact Option.noConfusion hh
    | some hdl =>
      refine ⟨?_, fun _ _ => ?_⟩
      · simp [cancelExecution, hid, hl, lookupReg_removeReg]
      · simp [cancelExecution, hid, hl]

/-- Witness for C2 at a concrete registry: cancelling a present handle with
a throwing kill still removes the entry and reports success. -/
theorem cancel_removes_entry_witness :
    ((cancelExecution regW "req-1" true).1 = CancelOutcome.cancelled
      ∨ (cancelExecution regW "req-1" true).1 = CancelOutcome.notFound)
    ∧ (lookupReg (cancelExecution regW "req-1" true).2.1 "req-1" = none
       ∧ (∀ hdl, lookupReg regW "req-1" = some hdl →
           (cancelExecution regW "req-1" true).1
             = CancelOutcome.cancelled)) :=
  ⟨Or.inl (by decide),
   cancel_removes_entry regW "req-1" true (Or.inl (by decide))⟩

/-- C4: with a non-empty requestId, the first cancellation yields
"cancelled" (or "not found" if already reaped), a second cancellation of the
same id yields "not found", an id with no registry entry yields "not found",
and an id whose started execution already completed yields "not found"; the
handler never throws (it is a total function, kill errors are swallowed). -/
theorem cancel_idempotent (reg : Registry) (id : String) (kt1 kt2 : Bool)
    (h : id ≠ "") :
    ((cancelExecution reg id kt1).1 = CancelOutcome.cancelled
      ∨ (cancelExecution reg id kt1).1 = CancelOutcome.notFound)
    ∧ (cancelExecution (cancelExecution reg id kt1).2.1 id kt2).1
        = CancelOutcome.notFound
    ∧ (lookupReg reg id = none →
        (cancelExecution reg id kt1).1 = CancelOutcome.notFound)
    ∧ (∀ env conn reg0, conn 0 = true → env.requestId = id →
        (cancelExecution (runExec env conn reg0).2 id kt1).1
          = CancelOutcome.notFound) := by
  have final : ∀ env conn reg0, conn 0 = true → env.requestId = id →
      (cancelExecution (runExec env conn reg0).2 id kt1).1
        = CancelOutcome.notFound := by
    intro env conn reg0 hc hidp
    have hf := runExec_lookup_final env conn reg0 hc
    rw [hidp] at hf
    simp [cancelExecution, h, hf]
  cases hl : lookupReg reg id with
  | none =>
    refine ⟨Or.inr ?_, ?_, fun _ => ?_, final⟩ <;>
      simp [cancelExecution, h, hl]
  | some hdl =>
    refine ⟨Or.inl ?_, ?_, fun hc => ?_, final⟩
    · simp [cancelExecution, h, hl]
    · simp [cancelExecution, h, hl, lookupReg_removeReg]
    · exact Option.noConfusion hc

/-- Witness for C4 at a concrete registry. -/
theorem cancel_idempotent_witness :
    ("req-1" ≠ "")
    ∧ (((cancelExecution regW "req-1" false).1 = CancelOutcome.cancelled
        ∨ (cancelExecution regW "req-1" false).1 = CancelOutcome.notFound)
      ∧ (cancelExecution (cancelExecution regW "req-1" false).2.1
           "req-1" true).1 = CancelOutcome.notFound
      ∧ (lookupReg regW "req-1" = none →
          (cancelExecution regW "req-1" false).1 = CancelOutcome.notFound)
      ∧ (∀ env conn reg0, conn 0 = true → env.requestId = "req-1" →
          (cancelExecution (runExec env conn reg0).2 "req-1" false).1
            = CancelOutcome.notFound)) :=
  ⟨by decide, cancel_idempotent regW "req-1" false true (by decide)⟩

/-- C6 counterexample: for a requestId bound to an E2B handle, the
cancellation handler schedules no forced SIGKILL at all; its only actions
are the awaited remote `kill("SIGTERM")` round-trip followed by the registry
removal — so the removal waits for the kill call to finish. -/
theorem cancel_e2b_no_forced_kill :
    (((cancelExecution regE2b "req-9" false).2.2).any isScheduleA = false)
    ∧ (cancelExecution regE2b "req-9" false).2.2
        = [CancelAction.kill "SIGTERM" true false,
           CancelAction.remove "req-9"] := by
  exact ⟨by decide, by decide⟩

/-- C6 (amended): the handler's kill behaviour depends on the kind of
handle. For a child-process handle with a pid it sends a local synchronous
SIGTERM, schedules a forced SIGKILL 1000 ms later when the SIGTERM call did
not throw, and removes the entry without awaiting any remote round-trip; for
an E2B handle it awaits the remote `kill("SIGTERM")` (whose failure is
swallowed) and schedules no forced kill; for a pid-less child handle it only
removes the entry. In every present case the entry is removed and the
outcome is "cancelled". -/
theorem cancel_kill_behavior (reg : Registry) (id : String) (kt : Bool)
    (h : id ≠ "") :
    (lookupReg reg id = some Handle.e2b →
      cancelExecution reg id kt =
        (CancelOutcome.cancelled, removeReg reg id,
         [CancelAction.kill "SIGTERM" true kt, CancelAction.remove id]))
    ∧ (∀ pid, lookupReg reg id = some (Handle.child (some pid)) →
      cancelExecution reg id kt =
        (CancelOutcome.cancelled, removeReg reg id,
         (if kt then [CancelAction.kill "SIGTERM" false true]
          else [CancelAction.kill "SIGTERM" false false,
                CancelAction.scheduleForceKill "SIGKILL" 1000])
           ++ [CancelAction.remove id]))
    ∧ (lookupReg reg id = some (Handle.child none) →
      cancelExecution reg id kt =
        (CancelOutcome.cancelled, removeReg reg id,
         [CancelAction.remove id])) := by
  refine ⟨fun hl => ?_, fun pid hl => ?_, fun hl => ?_⟩ <;>
    simp [cancelExecution, h, hl]

/-- Witness for the amended C6 at concrete registries: the child-process
case with a pid and a non-throwing SIGTERM. -/
theorem cancel_kill_behavior_witness :
    ("req-7" ≠ "")
    ∧ (lookupReg regChild "req-7" = some (Handle.child (some 42)))
    ∧ cancelExecution regChild "req-7" false =
        (CancelOutcome.cancelled, removeReg regChild "req-7",
         (if false then [CancelAction.kill "SIGTERM" false true]
          else [CancelAction.kill "SIGTERM" false false,
                CancelAction.scheduleForceKill "SIGKILL" 1000])
           ++ [CancelAction.remove "req-7"]) :=
  ⟨by decide, by decide,
   (cancel_kill_behavior regChild "req-7" false (by decide)).2.1 42
     (by decide)⟩

/-- C8 counterexample: the line "__CLAUDE_MESSAGE__ not-json" carries the
Claude-message marker and its payload "not-json" fails to parse, yet the
classifier emits nothing at all — the line is dropped, not re-emitted as a
`progress` event. -/
theorem marker_parse_fail_not_progress :
    handleOutput sampleParse "__CLAUDE_MESSAGE__ not-json" = []
    ∧ handleOutput sampleParse "__CLAUDE_MESSAGE__ not-json"
        ≠ [OutputEvent.progress (jsTrim "__CLAUDE_MESSAGE__ not-json")] := by
  refine ⟨rfl, fun hcontra => ?_⟩
  rw [show handleOutput sampleParse "__CLAUDE_MESSAGE__ not-json" = []
        from rfl] at hcontra
  exact List.cons_ne_nil _ _ hcontra.symm

/-- C8 (amended): for a line containing a structured-event marker whose JSON
payload fails to parse, the parse failure is swallowed and the line is
dropped entirely — no event is emitted; it does not fall through to
`progress` classification. -/
theorem marker_parse_fail_drops_line (p : String → Option Json)
    (line : String)
    (hne : jsTrim line ≠ "")
    (hsess : containsSub line "[System]: Session started:" = false) :
    (containsSub line "__CLAUDE_MESSAGE__" = true →
      p (jsTrim (afterFirst line "__CLAUDE_MESSAGE__")) = none →
      handleOutput p line = [])
    ∧ (containsSub line "__CLAUDE_MESSAGE__" = false →
      containsSub line "__TOOL_USE__" = true →
      p (jsTrim (afterFirst line "__TOOL_USE__")) = none →
      handleOutput p line = []) := by
  constructor
  · intro hm hp
    simp [handleOutput, hne, hsess, hm, hp]
  · intro hm1 hm2 hp
    simp [handleOutput, hne, hsess, hm1, hm2, hp]

/-- Witness for the amended C8 at the concrete malformed line. -/
theorem marker_parse_fail_drops_line_witness :
    (jsTrim "__CLAUDE_MESSAGE__ not-json" ≠ "")
    ∧ (containsSub "__CLAUDE_MESSAGE__ not-json"
         "[System]: Session started:" = false)
    ∧ (containsSub "__CLAUDE_MESSAGE__ not-json" "__CLAUDE_MESSAGE__" = true)
    ∧ handleOutput sampleParse "__CLAUDE_MESSAGE__ not-json" = [] :=
  ⟨by decide, by decide, by decide,
   (marker_parse_fail_drops_line sampleParse "__CLAUDE_MESSAGE__ not-json"
      (by decide) (by decide)).1 (by decide) rfl⟩

/-- C9 counterexample: the line "deploy [Claude]: starting" is non-empty,
contains no structured marker and no session pattern, yet it is filtered out
(because it contains "[Claude]:") instead of being re-emitted as a
`progress` event with its exact text. -/
theorem plain_line_filtered :
    handleOutput sampleParse "deploy [Claude]: starting" = []
    ∧ handleOutput sampleParse "deploy [Claude]: starting"
        ≠ [OutputEvent.progress "deploy [Claude]: starting"] := by
  refine ⟨rfl, fun hcontra => ?_⟩
  rw [show handleOutput sampleParse "deploy [Claude]: starting" = []
        from rfl] at hcontra
  exact List.cons_ne_nil _ _ hcontra.symm

/-- C9 (amended): a non-empty line containing no structured marker and no
session pattern is re-emitted as a `progress` event with its exact trimmed
text, provided it additionally passes the internal-log filter — its trimmed
text contains none of "[Claude]:", "[Tool]:", "__". -/
theorem plain_line_progress (p : String → Option Json) (line : String)
    (h1 : jsTrim line ≠ "")
    (h2 : containsSub line "[System]: Session started:" = false)
    (h3 : containsSub line "__CLAUDE_MESSAGE__" = false)
    (h4 : containsSub line "__TOOL_USE__" = false)
    (h5 : containsSub line "__TOOL_RESULT__" = false)
    (h6 : containsSub (jsTrim line) "[Claude]:" = false)
    (h7 : containsSub (jsTrim line) "[Tool]:" = false)
    (h8 : containsSub (jsTrim line) "__" = false) :
    handleOutput p line = [OutputEvent.progress (jsTrim line)] := by
  simp [handleOutput, h1, h2, h3, h4, h5, h6, h7, h8]

/-- Witness for the amended C9 at the spec's own example line. -/
theorem plain_line_progress_witness :
    (jsTrim "Installing dependencies..." ≠ "")
    ∧ handleOutput sampleParse "Installing dependencies..."
        = [OutputEvent.progress (jsTrim "Installing dependencies...")] :=
  ⟨by decide,
   plain_line_progress sampleParse "Installing dependencies..."
     (by decide) (by decide) (by decide) (by decide) (by decide)
     (by decide) (by decide) (by decide)⟩

/-- The terminal event of a started run whose sandbox connect succeeded:
`complete` on exit code 0, the catch-path `error` otherwise. -/
def execTerminal (env : ExecEnv) : OutputEvent :=
  match env.runErr with
  | some msg => OutputEvent.error msg
  | none =>
    if env.exitCode = 0 then OutputEvent.complete
    else OutputEvent.error
      ("Command exited with code " ++ toString env.exitCode)

/-- The terminal event is terminal-typed. -/
theorem execTerminal_terminal (env : ExecEnv) :
    isTerminalEvent (execTerminal env) = true := by
  unfold execTerminal
  cases env.runErr with
  | some msg => rfl
  | none =>
    by_cases he : env.exitCode = 0 <;> simp [he, isTerminalEvent]

/-- Structural characterization of the trace of a started run whose sandbox
connect succeeded: request-id write, the two remote calls, the early chunk
writes, the registry insertion, the late chunk writes, the registry
deletion, the terminal write, the `[DONE]` sentinel and the close, in that
order. -/
theorem runExec_ok_trace (env : ExecEnv) (conn : Nat → Bool) (reg : Registry)
    (h : conn 0 = true) (hc : env.connectErr = none) :
    (runExec env conn reg).1
      = Action.write (OutputEvent.request_id env.requestId) true
        :: Action.remote (RemoteCall.connect env.sandboxId)
        :: Action.remote (RemoteCall.runStart (wrappedCommand
             (some "/home/user/app")
             (buildCommand env.commandType env.query env.sessionId)
             env.pidFile))
        :: ((chunksActions env.jsonParse conn 1 env.earlyChunks).1
            ++ Action.regSet env.requestId
            :: ((chunksActions env.jsonParse conn
                  (chunksActions env.jsonParse conn 1 env.earlyChunks).2
                  env.lateChunks).1
                ++ [Action.regDelete env.requestId,
                    Action.write (execTerminal env)
                      (safeWrite (conn (chunksActions env.jsonParse conn
                        (chunksActions env.jsonParse conn 1
                          env.earlyChunks).2 env.lateChunks).2)),
                    Action.writeDone (safeWrite (conn ((chunksActions
                      env.jsonParse conn (chunksActions env.jsonParse conn 1
                        env.earlyChunks).2 env.lateChunks).2 + 1))),
                    Action.close])) := by
  unfold runExec execTerminal
  rw [safeWrite_eq, h, hc]
  cases hr : env.runErr with
  | some msg => simp [List.append_assoc]
  | none =>
    by_cases he : env.exitCode = 0 <;> simp [he, List.append_assoc]

/-- C3: the very first action of every accepted run — the trace records
stream writes and remote sandbox calls in program order — is the write of
the `request_id` event carrying the generated id; every remote call
therefore occurs strictly after it. -/
theorem request_id_first (env : ExecEnv) (conn : Nat → Bool)
    (reg : Registry) :
    ∃ rest, (runExec env conn reg).1
      = Action.write (OutputEvent.request_id env.requestId)
          (safeWrite (conn 0)) :: rest := by
  unfold runExec
  by_cases h : safeWrite (conn 0) = false
  · rw [if_pos h]
    exact ⟨[], rfl⟩
  · rw [if_neg h]
    cases hc : env.connectErr with
    | some msg => exact ⟨_, rfl⟩
    | none =>
      cases hr : env.runErr with
      | some msg => exact ⟨_, rfl⟩
      | none =>
        dsimp only
        by_cases he : env.exitCode = 0
        · rw [if_pos he]
          exact ⟨_, rfl⟩
        · rw [if_neg he]
          exact ⟨_, rfl⟩

/-- C10: when the very first write (the `request_id` event) fails because
the client already disconnected, the handler returns at once — the trace is
that single undelivered write, with no remote call and no registry mutation,
and the registry is returned unchanged. -/
theorem client_gone_before_start (env : ExecEnv) (conn : Nat → Bool)
    (reg : Registry) (h : conn 0 = false) :
    runExec env conn reg
      = ([Action.write (OutputEvent.request_id env.requestId) false],
         reg) := by
  unfold runExec
  rw [safeWrite_eq, h]
  simp

/-- Witness for C10 at a concrete run with a disconnected client. -/
theorem client_gone_before_start_witness :
    ((fun _ : Nat => false) 0 = false)
    ∧ runExec envPlain (fun _ => false) []
        = ([Action.write (OutputEvent.request_id envPlain.requestId) false],
           []) :=
  ⟨rfl, client_gone_before_start envPlain (fun _ => false) [] rfl⟩

/-- C7: stream-write failures are invisible to everything except the
delivered flags. For any two connectivity oracles that agree on the first
write, the traces agree after erasing delivered flags — the same events are
attempted in the same order, the same remote calls are made, the same
registry mutations happen — and the final registries are equal. A client
that disconnects mid-stream therefore never aborts the remote command or
its cleanup; `safeWrite` itself converts the writer's exception into a
returned flag (`safeWrite_eq`) instead of propagating it. -/
theorem writes_swallowed (env : ExecEnv) (conn conn2 : Nat → Bool)
    (reg : Registry) (h : conn 0 = conn2 0) :
    ((runExec env conn reg).1.map shape
        = (runExec env conn2 reg).1.map shape)
    ∧ (runExec env conn reg).2 = (runExec env conn2 reg).2 := by
  unfold runExec
  rw [h]
  simp only [safeWrite_eq]
  by_cases h0 : conn2 0 = false
  · simp [h0]
  · rw [if_neg h0, if_neg h0]
    cases hc : env.connectErr with
    | some msg => simp [shape]
    | none =>
      dsimp only
      cases hr : env.runErr with
      | some msg =>
        refine ⟨?_, rfl⟩
        simp [List.map_append, shape_chunksActions, shape]
      | none =>
        dsimp only
        by_cases he : env.exitCode = 0
        · rw [if_pos he, if_pos he]
          refine ⟨?_, rfl⟩
          simp [List.map_append, shape_chunksActions, shape]
        · rw [if_neg he, if_neg he]
          refine ⟨?_, rfl⟩
          simp [List.map_append, shape_chunksActions, shape]

/-- Witness for C7: a client that stays connected versus one that
disconnects right after the first write observe the same shaped trace and
leave the same registry. -/
theorem writes_swallowed_witness :
    ((fun _ : Nat => true) 0 = (fun n : Nat => n == 0) 0)
    ∧ (((runExec envPlain (fun _ => true) []).1.map shape
        = (runExec envPlain (fun n => n == 0) []).1.map shape)
      ∧ (runExec envPlain (fun _ => true) []).2
          = (runExec envPlain (fun n => n == 0) []).2) :=
  ⟨rfl, writes_swallowed envPlain (fun _ => true) (fun n => n == 0) [] rfl⟩

/-- Event extraction steps on literal traces. -/
theorem eventWrites_cons_write (e : OutputEvent) (d : Bool)
    (tr : List Action) :
    eventWrites (Action.write e d :: tr) = e :: eventWrites tr := rfl

/-- Remote calls contribute no events. -/
theorem eventWrites_cons_remote (r : RemoteCall) (tr : List Action) :
    eventWrites (Action.remote r :: tr) = eventWrites tr := rfl

/-- Registry insertions contribute no events. -/
theorem eventWrites_cons_regSet (id : String) (tr : List Action) :
    eventWrites (Action.regSet id :: tr) = eventWrites tr := rfl

/-- Registry deletions contribute no events. -/
theorem eventWrites_cons_regDelete (id : String) (tr : List Action) :
    eventWrites (Action.regDelete id :: tr) = eventWrites tr := rfl

/-- The empty trace has no events. -/
theorem eventWrites_nil : eventWrites [] = [] := rfl

/-- No `complete` event is ever written while streaming chunks. -/
theorem complete_not_in_eventWrites_chunks (p : String → Option Json)
    (conn : Nat → Bool) (k : Nat) (cs : List Chunk) :
    OutputEvent.complete ∉ eventWrites (chunksActions p conn k cs).1 := by
  intro hmem
  rcases mem_chunksActions_events hmem with ⟨c, _, hc⟩
  exact chunkEvents_no_complete p c hc

/-- C1 counterexample: in the concrete run `envStderr` the command writes
"Error: connection refused" to stderr and then exits with code 0, so the
stream carries two terminal-typed events — the relayed `error` and then
`complete` — before the `[DONE]` sentinel, not exactly one. -/
theorem two_terminal_events :
    List.countP isTerminalEvent
      (eventWrites (runExec envStderr (fun _ => true) []).1) ≠ 1 := by
  decide

/-- C1 (amended): once the execution starts (the first write succeeded),
exactly one terminal event is emitted in the positional sense: the trace
ends with a single write of a terminal-typed event (`complete` on success
xor the catch-path `error` on failure), immediately followed by the
`[DONE]` sentinel and the writer close, and `complete` is never written
earlier; `error`-typed events relayed from stderr may however appear
earlier in the stream, so the count of terminal-typed events can exceed
one. -/
theorem one_terminal_before_done (env : ExecEnv) (conn : Nat → Bool)
    (reg : Registry) (h : conn 0 = true) :
    ∃ pre t d d2, (runExec env conn reg).1
        = pre ++ [Action.write t d, Action.writeDone d2, Action.close]
      ∧ isTerminalEvent t = true
      ∧ OutputEvent.complete ∉ eventWrites pre := by
  cases hc : env.connectErr with
  | some msg =>
    refine ⟨[Action.write (OutputEvent.request_id env.requestId) true,
             Action.remote (RemoteCall.connect env.sandboxId),
             Action.regDelete env.requestId],
            OutputEvent.error msg, safeWrite (conn 1), safeWrite (conn 2),
            ?_, rfl, ?_⟩
    · unfold runExec
      rw [safeWrite_eq, h, hc]
      simp
    · intro hmem
      simp [eventWrites] at hmem
  | none =>
    refine ⟨Action.write (OutputEvent.request_id env.requestId) true
        :: Action.remote (RemoteCall.connect env.sandboxId)
        :: Action.remote (RemoteCall.runStart (wrappedCommand
             (some "/home/user/app")
             (buildCommand env.commandType env.query env.sessionId)
             env.pidFile))
        :: ((chunksActions env.jsonParse conn 1 env.earlyChunks).1
            ++ Action.regSet env.requestId
            :: ((chunksActions env.jsonParse conn
                  (chunksActions env.jsonParse conn 1 env.earlyChunks).2
                  env.lateChunks).1
                ++ [Action.regDelete env.requestId])),
        execTerminal env,
        safeWrite (conn (chunksActions env.jsonParse conn
          (chunksActions env.jsonParse conn 1 env.earlyChunks).2
          env.lateChunks).2),
        safeWrite (conn ((chunksActions env.jsonParse conn
          (chunksActions env.jsonParse conn 1 env.earlyChunks).2
          env.lateChunks).2 + 1)),
        ?_, execTerminal_terminal env, ?_⟩
    · rw [runExec_ok_trace env conn reg h hc]
      simp [List.append_assoc]
    · intro hmem
      simp only [eventWrites_cons_write, eventWrites_cons_remote,
        eventWrites_cons_regSet, eventWrites_cons_regDelete,
        eventWrites_append, eventWrites_nil, List.append_nil,
        List.mem_cons, List.mem_append] at hmem
      rcases hmem with h1 | h2 | h3
      · exact OutputEvent.noConfusion h1
      · exact complete_not_in_eventWrites_chunks _ _ _ _ h2
      · exact complete_not_in_eventWrites_chunks _ _ _ _ h3

/-- Witness for the amended C1 at a concrete connected run. -/
theorem one_terminal_before_done_witness :
    ((fun _ : Nat => true) 0 = true)
    ∧ ∃ pre t d d2, (runExec envPlain (fun _ => true) []).1
        = pre ++ [Action.write t d, Action.writeDone d2, Action.close]
      ∧ isTerminalEvent t = true
      ∧ OutputEvent.complete ∉ eventWrites pre :=
  ⟨rfl, one_terminal_before_done envPlain (fun _ => true) [] rfl⟩

/-- C5 counterexample: in the concrete run `envPlain` the registry
insertion (trace index 4) occurs after the remote `Sandbox.connect` call
(index 1), after the remote command start (index 2) and even after an
output line has been streamed (index 3) — not before any remote call. -/
theorem registration_after_remote :
    ¬ (List.findIdx isRegSetA (runExec envPlain (fun _ => true) []).1
        < List.findIdx isRemoteA (runExec envPlain (fun _ => true) []).1) := by
  decide

/-- C5 (amended): for a started run whose sandbox connect succeeded, the
handle is inserted into the registry under its requestId only after the
remote connect call, after the remote command start, and after any output
streamed before `executeInSandbox` returned — but before the completion of
the wait: the insertion precedes the late chunk writes, the registry
deletion and the terminal event. -/
theorem registration_timing (env : ExecEnv) (conn : Nat → Bool)
    (reg : Registry) (h : conn 0 = true) (hc : env.connectErr = none) :
    ∃ tail, ((runExec env conn reg).1
      = Action.write (OutputEvent.request_id env.requestId) true
        :: Action.remote (RemoteCall.connect env.sandboxId)
        :: Action.remote (RemoteCall.runStart (wrappedCommand
             (some "/home/user/app")
             (buildCommand env.commandType env.query env.sessionId)
             env.pidFile))
        :: ((chunksActions env.jsonParse conn 1 env.earlyChunks).1
            ++ Action.regSet env.requestId :: tail))
      ∧ ∃ tail2, tail
          = (chunksActions env.jsonParse conn
               (chunksActions env.jsonParse conn 1 env.earlyChunks).2
               env.lateChunks).1
            ++ Action.regDelete env.requestId :: tail2 := by
  exact ⟨_, runExec_ok_trace env conn reg h hc, _, rfl⟩

/-- Witness for the amended C5 at a concrete connected run. -/
theorem registration_timing_witness :
    ((fun _ : Nat => true) 0 = true)
    ∧ (envPlain.connectErr = none)
    ∧ ∃ tail, ((runExec envPlain (fun _ => true) []).1
        = Action.write (OutputEvent.request_id envPlain.requestId) true
          :: Action.remote (RemoteCall.connect envPlain.sandboxId)
          :: Action.remote (RemoteCall.runStart (wrappedCommand
               (some "/home/user/app")
               (buildCommand envPlain.commandType envPlain.query
                 envPlain.sessionId)
               envPlain.pidFile))
          :: ((chunksActions envPlain.jsonParse (fun _ => true) 1
                envPlain.earlyChunks).1
              ++ Action.regSet envPlain.requestId :: tail))
        ∧ ∃ tail2, tail
            = (chunksActions envPlain.jsonParse (fun _ => true)
                 (chunksActions envPlain.jsonParse (fun _ => true) 1
                   envPlain.earlyChunks).2
                 envPlain.lateChunks).1
              ++ Action.regDelete envPlain.requestId :: tail2 :=
  ⟨rfl, rfl, registration_timing envPlain (fun _ => true) [] rfl rfl⟩

end LovableBridge
